import Mathlib

/-!
Verification of fetch_ind_eng_tests_bbb_2025.py: a pipeline that filters
cricket match documents to the India vs England 2025 Test series and
flattens each accepted document into one row per delivery.

The Python data (nested JSON dictionaries) is shallowly embedded as Lean
structures whose optional fields model absent dictionary keys. Each Lean
definition translates one Python function or expression of the source.
-/

namespace CricketBBB

/-- A calendar date as compared by Python date objects:
lexicographic on (year, month, day). -/
structure SDate where
  year : Nat
  month : Nat
  day : Nat
deriving Repr, DecidableEq, Inhabited

/-- Python date comparison a <= b, lexicographic on (year, month, day). -/
def dateLE (a b : SDate) : Bool :=
  if a.year ≠ b.year then decide (a.year < b.year)
  else if a.month ≠ b.month then decide (a.month < b.month)
  else decide (a.day ≤ b.day)

/-- START = date(2025, 6, 1) from the source. -/
def START : SDate := ⟨2025, 6, 1⟩

/-- END = date(2025, 8, 31) from the source. -/
def END : SDate := ⟨2025, 8, 31⟩

/-- One entry of info.dates: its raw textual form (what str(d) yields)
together with the outcome of datetime.fromisoformat on it - some date
on success, none when parsing raises. -/
structure RawDate where
  raw : String
  parsed : Option SDate
deriving Repr, DecidableEq, Inhabited

/-- One entry of a wicket fielders list: a dictionary with an optional
name key. -/
structure Fielder where
  name : Option String
deriving Repr, DecidableEq, Inhabited

/-- A wicket event inside a delivery. -/
structure Wicket where
  kind : Option String
  player_out : Option String
  fielders : List Fielder
deriving Repr, DecidableEq, Inhabited

/-- The runs breakdown dictionary of a delivery; absent keys are none. -/
structure Runs where
  batter : Option Nat
  extras : Option Nat
  total : Option Nat
deriving Repr, DecidableEq, Inhabited

/-- The extras breakdown dictionary of a delivery; absent keys are none. -/
structure Extras where
  byes : Option Nat
  legbyes : Option Nat
  wides : Option Nat
  noballs : Option Nat
  penalty : Option Nat
deriving Repr, DecidableEq, Inhabited

/-- One delivery (ball) dictionary. The ball label is kept as raw text,
matching the source which passes it through verbatim. -/
structure Delivery where
  ball : Option String
  batter : Option String
  bowler : Option String
  non_striker : Option String
  runs : Option Runs
  extras : Option Extras
  wickets : List Wicket
deriving Repr, DecidableEq, Inhabited

/-- An over block: its own over number field plus the deliveries list. -/
structure Over where
  over : Option Nat
  deliveries : List Delivery
deriving Repr, DecidableEq, Inhabited

/-- One innings: batting team and the overs list. -/
structure Innings where
  team : Option String
  overs : List Over
deriving Repr, DecidableEq, Inhabited

/-- The info.event dictionary, carrying an optional match_number. -/
structure Event where
  match_number : Option Nat
deriving Repr, DecidableEq, Inhabited

/-- The info dictionary of a match document. Each field is optional,
modelling dict.get returning None for absent keys. -/
structure Info where
  match_type : Option String
  match_type_number : Option Nat
  teams : Option (List String)
  dates : Option (List RawDate)
  venue : Option String
  city : Option String
  season : Option String
  match_id : Option String
  event : Option Event
deriving Repr, DecidableEq, Inhabited

/-- A whole match document: info (possibly absent) and the innings list. -/
structure MatchDocument where
  info : Option Info
  innings : List Innings
deriving Repr, DecidableEq, Inhabited

/-- Python truthiness of an optional string: present and nonempty. -/
def pyTruthyStr (o : Option String) : Bool :=
  match o with
  | some s => decide (s ≠ "")
  | none => false

/-- Python truthiness of an optional integer: present and nonzero. -/
def pyTruthyNat (o : Option Nat) : Bool :=
  match o with
  | some n => decide (n ≠ 0)
  | none => false

/-- Membership of a parsed date in the closed window START <= dt <= END,
the comparison chain of line 27 of the source. -/
def inWindow (dt : SDate) : Bool :=
  dateLE START dt && dateLE dt END

/-- within_series_window(info): some declared date parses and falls in
the closed window; parse failures are skipped by the except/continue. -/
def within_series_window (info : Info) : Bool :=
  (info.dates.getD []).any fun rd =>
    match rd.parsed with
    | some dt => inWindow dt
    | none => false

/-- Python str.lower(), character by character (the relevant strings
are plain ASCII category labels). -/
def strToLower (s : String) : String := ⟨s.data.map Char.toLower⟩

/-- The first conditional of is_ind_eng_test (line 34): a truthy
match_type or match_type_number is declared and (match_type or "")
lowercased differs from "test". -/
def category_rejects (info : Info) : Bool :=
  (pyTruthyStr info.match_type || pyTruthyNat info.match_type_number)
    && decide (strToLower (info.match_type.getD "") ≠ "test")

/-- The team condition of is_ind_eng_test (lines 36-37): the declared
teams contain both India and England. -/
def team_ok (info : Info) : Bool :=
  let teams := info.teams.getD []
  teams.contains "India" && teams.contains "England"

/-- is_ind_eng_test(info) from the source. -/
def is_ind_eng_test (info : Info) : Bool :=
  if category_rejects info then false else team_ok info

/-- The value placed in the match_id output column: it is either the
info.match_id string or the info.event.match_number integer. -/
inductive MatchId where
  | str (s : String)
  | num (n : Nat)
deriving Repr, DecidableEq

/-- Line 64 of the source:
info.get("match_id") or info.get("event", default).get("match_number").
Python or yields the right operand whenever the left is falsy. -/
def compute_match_id (info : Info) : Option MatchId :=
  match info.match_id with
  | some s =>
      if s ≠ "" then some (MatchId.str s)
      else ((info.event.getD default).match_number).map MatchId.num
  | none => ((info.event.getD default).match_number).map MatchId.num

/-- One output row of the flattener, the dictionary appended to balls. -/
structure FlatRecord where
  match_id : Option MatchId
  season : Option String
  date_list : String
  venue : Option String
  city : Option String
  teams : String
  innings : Nat
  batting_team : Option String
  over : Option Nat
  ball_label : Option String
  batter : Option String
  bowler : Option String
  non_striker : Option String
  runs_batter : Nat
  runs_extras : Nat
  runs_total : Nat
  extra_byes : Nat
  extra_legbyes : Nat
  extra_wides : Nat
  extra_noballs : Nat
  extra_penalty : Nat
  wicket_kind : Option String
  wicket_player_out : Option String
  wicket_fielders : Option String
deriving Repr, DecidableEq

/-- The match-level fields computed once per document
(lines 63-69 of the source). -/
structure MatchCtx where
  match_id : Option MatchId
  season : Option String
  date_list : String
  venue : Option String
  city : Option String
  teams_str : String
deriving Repr, DecidableEq

/-- The dictionary built for one delivery inside the innermost loop of
flatten_match (lines 80-112), given the surrounding loop state. -/
def mkRecord (ctx : MatchCtx) (inn_no : Nat) (team : Option String)
    (over_no : Option Nat) (d : Delivery) : FlatRecord :=
  let runs := d.runs.getD default
  let extras := d.extras.getD default
  let wicket_list := d.wickets
  { match_id := ctx.match_id
    season := ctx.season
    date_list := ctx.date_list
    venue := ctx.venue
    city := ctx.city
    teams := ctx.teams_str
    innings := inn_no
    batting_team := team
    over := over_no
    ball_label := d.ball
    batter := d.batter
    bowler := d.bowler
    non_striker := d.non_striker
    runs_batter := (runs.batter).getD 0
    runs_extras := (runs.extras).getD 0
    runs_total := (runs.total).getD 0
    extra_byes := (extras.byes).getD 0
    extra_legbyes := (extras.legbyes).getD 0
    extra_wides := (extras.wides).getD 0
    extra_noballs := (extras.noballs).getD 0
    extra_penalty := (extras.penalty).getD 0
    wicket_kind := match wicket_list with
      | [] => none
      | w :: _ => w.kind
    wicket_player_out := match wicket_list with
      | [] => none
      | w :: _ => w.player_out
    wicket_fielders := match wicket_list with
      | [] => none
      | _ :: _ => some (String.intercalate ","
          ((wicket_list.filter fun w => !w.fielders.isEmpty).map
            fun w => ((w.fielders.headD default).name).getD "")) }

/-- flatten_match(json_obj): iterate innings with 1-based numbering, then
overs, then deliveries, emitting one record per delivery. -/
def flatten_match (doc : MatchDocument) : List FlatRecord :=
  let info := doc.info.getD default
  let ctx : MatchCtx :=
    { match_id := compute_match_id info
      season := info.season
      date_list := String.intercalate ","
        ((info.dates.getD []).map fun rd => rd.raw)
      venue := info.venue
      city := info.city
      teams_str := String.intercalate "," (info.teams.getD []) }
  (List.enumFrom 1 doc.innings).flatMap fun p =>
    p.2.overs.flatMap fun ob =>
      ob.deliveries.map fun d => mkRecord ctx p.1 p.2.team ob.over d

/-- The per-document acceptance condition of the scanning loop in main
(lines 129-133): both filters accept the info dictionary. -/
def doc_passes (obj : MatchDocument) : Bool :=
  let info := obj.info.getD default
  is_ind_eng_test info && within_series_window info

/-- The row-collection loop of main (lines 119-134): each archive entry
either fails JSON decoding (none, skipped by the except/continue) or
yields a document, which contributes its flattened rows exactly when
both filters accept its info. -/
def collect_rows (docs : List (Option MatchDocument)) : List FlatRecord :=
  docs.flatMap fun od =>
    match od with
    | none => []
    | some obj => if doc_passes obj then flatten_match obj else []

/-- The tail of main (lines 136-148): an empty row set raises SystemExit
with a message (modelled as Except.error) before any output file is
written; otherwise the rows are written out (modelled as Except.ok). -/
def runPipeline (docs : List (Option MatchDocument)) :
    Except String (List FlatRecord) :=
  let rows := collect_rows docs
  if rows.isEmpty then
    Except.error ("No India vs England Test matches found in the " ++
      "specified window. Try widening START/END or verify series dates.")
  else
    Except.ok rows

/-! ### Spec-side definitions, stated from the specification text -/

/-- Spec: the sum of delivery counts across all overs across all innings
of a document. -/
def totalDeliveries (doc : MatchDocument) : Nat :=
  (doc.innings.map fun inn =>
    (inn.overs.map fun ob => ob.deliveries.length).sum).sum

/-- Spec: the identifying keys (innings number starting at 1, over
number, ball label) of every delivery of a document, listed in
innings, then over, then delivery encounter order. -/
def encounterKeys (doc : MatchDocument) :
    List (Nat × Option Nat × Option String) :=
  (List.enumFrom 1 doc.innings).flatMap fun p =>
    p.2.overs.flatMap fun ob =>
      ob.deliveries.map fun d => (p.1, ob.over, d.ball)

/-- Spec: the info declares a match category - a truthy match_type or a
truthy match_type_number (Python truthiness: nonempty, nonzero). -/
def declaresCategory (info : Info) : Prop :=
  (∃ s, info.match_type = some s ∧ s ≠ "") ∨
  (∃ n, info.match_type_number = some n ∧ n ≠ 0)

/-- Spec: walk the wicket entries of a delivery in encounter order and
take the first fielder name of each entry that has at least one
fielder; fielderless entries contribute nothing. -/
def firstFielderNames : List Wicket → List String
  | [] => []
  | w :: ws =>
    match w.fielders with
    | [] => firstFielderNames ws
    | f :: _ => f.name.getD "" :: firstFielderNames ws

/-! ### Helper lemmas -/

/-- Mapping a function of the element part over an enumerated list is
mapping it over the underlying list. -/
lemma enumFrom_map_val {α β : Type} (g : α → β) :
    ∀ (n : Nat) (l : List α),
      (List.enumFrom n l).map (fun p => g p.2) = l.map g := by
  intro n l
  induction l generalizing n with
  | nil => rfl
  | cons a l ih => simp [List.enumFrom, ih]

/-! ### Claim theorems -/

/-- C1: flatten_match emits exactly one record per delivery, so its
length is the sum of delivery counts across all overs across all
innings, and the records appear in innings, then over, then delivery
encounter order (witnessed by their innings number, over number and
ball label keys). -/
theorem flatten_one_per_delivery (doc : MatchDocument) :
    (flatten_match doc).length = totalDeliveries doc ∧
    (flatten_match doc).map (fun r => (r.innings, r.over, r.ball_label)) =
      encounterKeys doc := by
  constructor
  · simp only [flatten_match, totalDeliveries, List.length_flatMap,
      List.map_map, List.length_map]
    rw [← enumFrom_map_val (fun inn : Innings =>
      (inn.overs.map fun ob => ob.deliveries.length).sum) 1 doc.innings]
    simp [Function.comp_def, List.length_flatMap, List.length_map]
  · simp only [flatten_match, encounterKeys, List.map_flatMap, List.map_map]
    rfl


/-- C2: the category check rejects exactly when the info declares a
match category (a truthy match_type) or a truthy match_type_number and
the declared category string, lowercased, is not "test"; an info with
neither field passes the category check. -/
theorem category_check_rejects_iff (info : Info) :
    (category_rejects info = true ↔
      declaresCategory info ∧ strToLower (info.match_type.getD "") ≠ "test") ∧
    (info.match_type = none → info.match_type_number = none →
      category_rejects info = false) := by
  constructor
  · rw [category_rejects]
    cases hmt : info.match_type with
    | none =>
        cases hn : info.match_type_number with
        | none => simp [declaresCategory, pyTruthyStr, pyTruthyNat, hmt, hn]
        | some n => simp [declaresCategory, pyTruthyStr, pyTruthyNat, hmt, hn]
    | some s =>
        cases hn : info.match_type_number with
        | none => simp [declaresCategory, pyTruthyStr, pyTruthyNat, hmt, hn]
        | some n => simp [declaresCategory, pyTruthyStr, pyTruthyNat, hmt, hn]
  · intro h1 h2
    simp [category_rejects, pyTruthyStr, pyTruthyNat, h1, h2]

def infoODI : Info :=
  ⟨some "ODI", none, none, none, none, none, none, none, none⟩

def infoNoCategory : Info :=
  ⟨none, none, some ["India", "England"], none, none, none, none, none, none⟩

theorem category_check_rejects_iff_witness :
    category_rejects infoODI = true ∧
    category_rejects infoNoCategory = false := by
  constructor
  · exact (category_check_rejects_iff infoODI).1.mpr
      ⟨Or.inl ⟨"ODI", rfl, by decide⟩, by decide⟩
  · exact (category_check_rejects_iff infoNoCategory).2 rfl rfl

/-- C5: the team check passes exactly when the set of declared teams is
a superset of the two configured team names, by exact string equality
and independent of order; extra teams alongside the required two still
pass. -/
theorem team_check_superset (info : Info) :
    (team_ok info = true ↔
      ({"India", "England"} : Set String) ⊆ {t | t ∈ info.teams.getD []}) ∧
    (∀ ts, info.teams = some ts → "India" ∈ ts → "England" ∈ ts →
      team_ok info = true) := by
  constructor
  · simp [team_ok, Set.insert_subset_iff, Set.singleton_subset_iff,
      Set.mem_setOf_eq, List.elem_iff]
  · intro ts hts h1 h2
    simp [team_ok, hts, List.elem_iff, h1, h2]

def infoThreeTeams : Info :=
  ⟨some "Test", none, some ["Australia", "India", "England"], none, none,
    none, none, none, none⟩

theorem team_check_superset_witness :
    team_ok infoThreeTeams = true := by
  exact (team_check_superset infoThreeTeams).2 ["Australia", "India", "England"]
    rfl (by decide) (by decide)


lemma firstFielderNames_eq_filter_map (l : List Wicket) :
    (l.filter fun w => !w.fielders.isEmpty).map
      (fun w => ((w.fielders.headD default).name).getD "") =
    firstFielderNames l := by
  induction l with
  | nil => rfl
  | cons w ws ih =>
      cases hf : w.fielders with
      | nil =>
          simp [List.filter_cons, hf, firstFielderNames] at ih ⊢
          exact ih
      | cons f fs =>
          simp [List.filter_cons, hf, firstFielderNames] at ih ⊢
          exact ih

/-- C3: for a delivery with at least one wicket entry, wicket_kind and
wicket_player_out come from the first entry only, and wicket_fielders
is the comma-joined list, in encounter order, of the first fielder
name of each entry that has at least one fielder. -/
theorem first_wicket_and_fielders (ctx : MatchCtx) (k : Nat)
    (team : Option String) (ov : Option Nat) (d : Delivery)
    (w : Wicket) (ws : List Wicket) (h : d.wickets = w :: ws) :
    (mkRecord ctx k team ov d).wicket_kind = w.kind ∧
    (mkRecord ctx k team ov d).wicket_player_out = w.player_out ∧
    (mkRecord ctx k team ov d).wicket_fielders =
      some (String.intercalate "," (firstFielderNames d.wickets)) := by
  refine ⟨?_, ?_, ?_⟩ <;>
    simp [mkRecord, h, ← firstFielderNames_eq_filter_map]

def ctx0 : MatchCtx := ⟨none, none, "", none, none, ""⟩

def wicketA : Wicket := ⟨some "caught", some "P", [⟨some "A"⟩]⟩

def wicketB : Wicket := ⟨some "run out", some "Q", [⟨some "B"⟩]⟩

def deliveryAB : Delivery :=
  ⟨some "0.1", some "X", some "Y", some "Z", none, none, [wicketA, wicketB]⟩

theorem first_wicket_and_fielders_witness :
    (mkRecord ctx0 1 (some "T") (some 0) deliveryAB).wicket_kind =
      some "caught" ∧
    (mkRecord ctx0 1 (some "T") (some 0) deliveryAB).wicket_player_out =
      some "P" ∧
    (mkRecord ctx0 1 (some "T") (some 0) deliveryAB).wicket_fielders =
      some "A,B" := by
  have h := first_wicket_and_fielders ctx0 1 (some "T") (some 0) deliveryAB
    wicketA [wicketB] rfl
  refine ⟨h.1, h.2.1, ?_⟩
  rw [h.2.2]
  rfl

/-- C4: the date-window check accepts exactly when some declared date
parses and lies in the closed window; unparseable dates are skipped
silently, and an info with no dates, or with only unparseable dates,
is rejected by this check. -/
theorem date_window_accepts_iff (info : Info) :
    (within_series_window info = true ↔
      ∃ rd ∈ info.dates.getD [], ∃ dt, rd.parsed = some dt ∧
        inWindow dt = true) ∧
    (info.dates.getD [] = [] → within_series_window info = false) ∧
    ((∀ rd ∈ info.dates.getD [], rd.parsed = none) →
      within_series_window info = false) := by
  have hiff : within_series_window info = true ↔
      ∃ rd ∈ info.dates.getD [], ∃ dt, rd.parsed = some dt ∧
        inWindow dt = true := by
    rw [within_series_window, List.any_eq_true]
    refine exists_congr fun rd => and_congr_right fun _ => ?_
    cases hp : rd.parsed with
    | none => simp [hp]
    | some dt => simp [hp]
  refine ⟨hiff, ?_, ?_⟩
  · intro h
    simp [within_series_window, h]
  · intro h
    by_contra hc
    obtain ⟨rd, hrd, dt, hdt, _⟩ :=
      hiff.mp (eq_true_of_ne_false hc)
    rw [h rd hrd] at hdt
    exact Option.noConfusion hdt

def infoGoodDate : Info :=
  ⟨none, none, none,
    some [⟨"bad", none⟩, ⟨"2025-07-01", some ⟨2025, 7, 1⟩⟩],
    none, none, none, none, none⟩

def infoNoDates : Info :=
  ⟨none, none, none, none, none, none, none, none, none⟩

def infoAllBadDates : Info :=
  ⟨none, none, none, some [⟨"junk", none⟩, ⟨"also junk", none⟩],
    none, none, none, none, none⟩

theorem date_window_accepts_iff_witness :
    within_series_window infoGoodDate = true ∧
    within_series_window infoNoDates = false ∧
    within_series_window infoAllBadDates = false := by
  refine ⟨?_, ?_, ?_⟩
  · exact (date_window_accepts_iff infoGoodDate).1.mpr
      ⟨⟨"2025-07-01", some ⟨2025, 7, 1⟩⟩, by decide, ⟨2025, 7, 1⟩, rfl,
        by decide⟩
  · exact (date_window_accepts_iff infoNoDates).2.1 rfl
  · exact (date_window_accepts_iff infoAllBadDates).2.2 (by decide)


lemma optField_getD_zero {σ : Type} [Inhabited σ] (f : σ → Option Nat)
    (hf : f default = none) (o : Option σ) (h : o.bind f = none) :
    (f (o.getD default)).getD 0 = 0 := by
  cases o with
  | none => simp [hf]
  | some s =>
      simp only [Option.some_bind] at h
      simp [h]

/-- C6: a delivery whose runs or extras breakdown omits one of the
optional numeric subfields gets 0 in the corresponding record field
(the record fields are total numbers, never null, and the
construction never fails). -/
theorem missing_numeric_subfields_zero (ctx : MatchCtx) (k : Nat)
    (team : Option String) (ov : Option Nat) (d : Delivery) :
    (d.runs.bind Runs.batter = none →
      (mkRecord ctx k team ov d).runs_batter = 0) ∧
    (d.runs.bind Runs.extras = none →
      (mkRecord ctx k team ov d).runs_extras = 0) ∧
    (d.runs.bind Runs.total = none →
      (mkRecord ctx k team ov d).runs_total = 0) ∧
    (d.extras.bind Extras.byes = none →
      (mkRecord ctx k team ov d).extra_byes = 0) ∧
    (d.extras.bind Extras.legbyes = none →
      (mkRecord ctx k team ov d).extra_legbyes = 0) ∧
    (d.extras.bind Extras.wides = none →
      (mkRecord ctx k team ov d).extra_wides = 0) ∧
    (d.extras.bind Extras.noballs = none →
      (mkRecord ctx k team ov d).extra_noballs = 0) ∧
    (d.extras.bind Extras.penalty = none →
      (mkRecord ctx k team ov d).extra_penalty = 0) := by
  refine ⟨?_, ?_, ?_, ?_, ?_, ?_, ?_, ?_⟩ <;> intro h <;>
    simp only [mkRecord] <;>
    exact optField_getD_zero _ rfl _ h


def deliveryBare : Delivery := ⟨none, none, none, none, none, none, []⟩

theorem missing_numeric_subfields_zero_witness :
    (mkRecord ctx0 1 none none deliveryBare).runs_batter = 0 ∧
    (mkRecord ctx0 1 none none deliveryBare).runs_extras = 0 ∧
    (mkRecord ctx0 1 none none deliveryBare).runs_total = 0 ∧
    (mkRecord ctx0 1 none none deliveryBare).extra_byes = 0 ∧
    (mkRecord ctx0 1 none none deliveryBare).extra_legbyes = 0 ∧
    (mkRecord ctx0 1 none none deliveryBare).extra_wides = 0 ∧
    (mkRecord ctx0 1 none none deliveryBare).extra_noballs = 0 ∧
    (mkRecord ctx0 1 none none deliveryBare).extra_penalty = 0 := by
  have h := missing_numeric_subfields_zero ctx0 1 none none deliveryBare
  exact ⟨h.1 rfl, h.2.1 rfl, h.2.2.1 rfl, h.2.2.2.1 rfl, h.2.2.2.2.1 rfl,
    h.2.2.2.2.2.1 rfl, h.2.2.2.2.2.2.1 rfl, h.2.2.2.2.2.2.2 rfl⟩

/-- C7: a delivery with zero wicket entries flattens, without error, to
a record whose wicket_kind, wicket_player_out and wicket_fielders are
all null. -/
theorem zero_wickets_null_fields (ctx : MatchCtx) (k : Nat)
    (team : Option String) (ov : Option Nat) (d : Delivery)
    (h : d.wickets = []) :
    (mkRecord ctx k team ov d).wicket_kind = none ∧
    (mkRecord ctx k team ov d).wicket_player_out = none ∧
    (mkRecord ctx k team ov d).wicket_fielders = none := by
  refine ⟨?_, ?_, ?_⟩ <;> simp [mkRecord, h]

def deliveryNoWicket : Delivery :=
  ⟨some "0.2", some "X", some "Y", some "Z",
    some ⟨some 4, some 0, some 4⟩, none, []⟩

theorem zero_wickets_null_fields_witness :
    (mkRecord ctx0 1 (some "T") (some 3) deliveryNoWicket).wicket_kind =
      none ∧
    (mkRecord ctx0 1 (some "T") (some 3)
      deliveryNoWicket).wicket_player_out = none ∧
    (mkRecord ctx0 1 (some "T") (some 3)
      deliveryNoWicket).wicket_fielders = none :=
  zero_wickets_null_fields ctx0 1 (some "T") (some 3) deliveryNoWicket rfl

/-- C10: a delivery with at least one wicket entry, none of which has a
fielder, gets the empty string (not null) as wicket_fielders; the
wicket_fielders field is null exactly when the delivery has zero
wicket entries. -/
theorem fielderless_wickets_empty_string (ctx : MatchCtx) (k : Nat)
    (team : Option String) (ov : Option Nat) (d : Delivery) :
    (d.wickets ≠ [] → (∀ w ∈ d.wickets, w.fielders = []) →
      (mkRecord ctx k team ov d).wicket_fielders = some "") ∧
    ((mkRecord ctx k team ov d).wicket_fielders = none ↔
      d.wickets = []) := by
  constructor
  · intro hne hall
    have hfil : d.wickets.filter (fun w => !w.fielders.isEmpty) = [] := by
      rw [List.filter_eq_nil_iff]
      intro w hw
      simp [hall w hw]
    cases hw : d.wickets with
    | nil => exact absurd hw hne
    | cons w ws =>
        rw [hw] at hfil
        simp [mkRecord, hw, hfil, String.intercalate]
  · cases hw : d.wickets with
    | nil => simp [mkRecord, hw]
    | cons w ws => simp [mkRecord, hw]

def wicketNoFielder : Wicket := ⟨some "bowled", some "R", []⟩

def deliveryBowled : Delivery :=
  ⟨some "5.4", some "X", some "Y", some "Z", none, none, [wicketNoFielder]⟩

theorem fielderless_wickets_empty_string_witness :
    (mkRecord ctx0 2 (some "T") (some 5) deliveryBowled).wicket_fielders =
      some "" := by
  exact (fielderless_wickets_empty_string ctx0 2 (some "T") (some 5)
    deliveryBowled).1 (by decide) (by decide)


lemma collect_rows_eq_nil (docs : List (Option MatchDocument))
    (h : ∀ obj : MatchDocument, some obj ∈ docs →
      doc_passes obj = false) :
    collect_rows docs = [] := by
  induction docs with
  | nil => rfl
  | cons od rest ih =>
      have hrest : collect_rows rest = [] :=
        ih fun obj hobj => h obj (List.mem_cons_of_mem _ hobj)
      cases od with
      | none => simpa [collect_rows, List.flatMap_cons] using hrest
      | some obj =>
          have hp := h obj (List.mem_cons_self _ _)
          simpa [collect_rows, List.flatMap_cons, hp] using hrest

/-- C8: when no decoded document passes both filters, the pipeline
terminates with an error rather than writing output, and a successful
run never produces an empty row set. -/
theorem empty_result_fatal (docs : List (Option MatchDocument)) :
    ((∀ obj : MatchDocument, some obj ∈ docs → doc_passes obj = false) →
      ∃ msg, runPipeline docs = Except.error msg) ∧
    (∀ out, runPipeline docs = Except.ok out → out ≠ []) := by
  constructor
  · intro h
    have hnil := collect_rows_eq_nil docs h
    simp only [runPipeline, hnil, List.isEmpty_nil, if_pos]
    exact ⟨_, rfl⟩
  · intro out hout
    rw [runPipeline] at hout
    by_cases hc : (collect_rows docs).isEmpty
    · simp [hc] at hout
    · simp [hc] at hout
      intro hnil
      exact hc (by rw [hout, hnil]; rfl)

def docRejected : MatchDocument := ⟨some infoODI, []⟩

def infoFallback : Info :=
  ⟨some "Test", none, some ["India", "England"],
    some [⟨"2025-07-14", some ⟨2025, 7, 14⟩⟩], some "V", some "C",
    some "2025", none, some ⟨some 5⟩⟩

def docGood : MatchDocument :=
  ⟨some infoFallback,
    [⟨some "England", [⟨some 0, [deliveryNoWicket]⟩]⟩]⟩

theorem empty_result_fatal_witness :
    (∃ msg, runPipeline [none, some docRejected] = Except.error msg) ∧
    collect_rows [some docGood] ≠ [] := by
  constructor
  · refine (empty_result_fatal [none, some docRejected]).1 ?_
    intro obj hobj
    simp at hobj
    subst hobj
    decide
  · refine (empty_result_fatal [some docGood]).2
      (collect_rows [some docGood]) ?_
    have h : (collect_rows [some docGood]).isEmpty = false := by decide
    simp [runPipeline, h]

lemma mem_flatten_match_id (doc : MatchDocument) (r : FlatRecord)
    (hr : r ∈ flatten_match doc) :
    r.match_id = compute_match_id (doc.info.getD default) := by
  simp only [flatten_match, List.mem_flatMap, List.mem_map] at hr
  obtain ⟨p, _, ob, _, d, _, rfl⟩ := hr
  rfl

/-- C9: when info has no match_id, every flattened record takes its
match_id from info.event.match_number, and that field is null exactly
when the match_number is also absent. -/
theorem match_id_event_fallback (doc : MatchDocument)
    (h : (doc.info.getD default).match_id = none) :
    (∀ r ∈ flatten_match doc,
      r.match_id =
        (((doc.info.getD default).event.getD default).match_number).map
          MatchId.num) ∧
    (∀ r ∈ flatten_match doc,
      (r.match_id = none ↔
        ((doc.info.getD default).event.getD default).match_number =
          none)) := by
  have hc : compute_match_id (doc.info.getD default) =
      (((doc.info.getD default).event.getD default).match_number).map
        MatchId.num := by
    rw [compute_match_id, h]
  constructor
  · intro r hr
    rw [mem_flatten_match_id doc r hr, hc]
  · intro r hr
    rw [mem_flatten_match_id doc r hr, hc]
    cases ((doc.info.getD default).event.getD default).match_number <;> simp

def docFallback : MatchDocument :=
  ⟨some infoFallback, [⟨some "India", [⟨some 7, [deliveryBowled]⟩]⟩]⟩

theorem match_id_event_fallback_witness :
    ∃ r ∈ flatten_match docFallback,
      r.match_id = some (MatchId.num 5) := by
  cases hE : flatten_match docFallback with
  | nil => exact absurd hE (by decide)
  | cons r rest =>
      exact ⟨r, by simp [hE],
        ((match_id_event_fallback docFallback rfl).1 r
          (by simp [hE])).trans rfl⟩

end CricketBBB
